import Mathlib

/-
Verification of the parallel-inference orchestration core of OmniAvatar
(scripts/parallel_inference.py and scripts/speed_benchmark.py) against its
natural-language specification.

The Python code is shallowly embedded: pure Lean functions mirror the Python
functions line by line; file contents are `String`s, line lists are
`List String`, wall-clock durations are `ℚ`, an external process invocation
is a `ProcBehavior` record describing how the process would behave, and an
uncaught Python exception is `Except.error`.
-/

namespace OmniAvatar

/- Python string primitives used by the scripts. -/

/-- Whitespace set of Python str.strip with no argument (ASCII subset). -/
def pyIsSpace (c : Char) : Bool :=
  c = ' ' || c = '\t' || c = '\n' || c = '\r' || c = Char.ofNat 11 || c = Char.ofNat 12

/-- Python str.strip on a character list: remove leading and trailing whitespace. -/
def pyStripList (cs : List Char) : List Char :=
  ((cs.dropWhile pyIsSpace).reverse.dropWhile pyIsSpace).reverse

/-- Python str.strip. -/
def pyStrip (s : String) : String :=
  String.mk (pyStripList s.data)

/-- Python negative-index slice s[-n:]: the last n characters (all of s if shorter). -/
def pyTail (n : Nat) (s : String) : String :=
  String.mk (s.data.drop (s.data.length - n))

/-- Split a character stream at newline characters; iterating a Python text file
yields exactly these segments (each segment's trailing whitespace is removed by
strip afterwards, so keeping or dropping the newline itself is immaterial). -/
def splitOnNewline : List Char → List (List Char)
  | [] => [[]]
  | c :: cs =>
    if c = '\n' then [] :: splitOnNewline cs
    else
      match splitOnNewline cs with
      | [] => [[c]]
      | l :: ls => (c :: l) :: ls

/-- Embedding of parallel_inference.py line 42:
lines = [line.strip() for line in f if line.strip()]. -/
def readStrippedLines (raw : String) : List String :=
  ((splitOnNewline raw.data).map (fun l => String.mk (pyStripList l))).filter
    (fun l => l != "")

/- Workload Partitioner: split_input_file (parallel_inference.py lines 39-54). -/

/-- The chunking loop of split_input_file:
for i in range(0, len(lines), chunk_size): chunks.append(lines[i:i+chunk_size]).
Fuel-based recursion; the call site passes fuel = xs.length, which suffices
because the stride cs is always at least 1 there. -/
def chunksLoop {α : Type} (cs : Nat) : Nat → List α → List (List α)
  | 0, _ => []
  | _ + 1, [] => []
  | fuel + 1, x :: xs => (x :: xs).take cs :: chunksLoop cs fuel ((x :: xs).drop cs)

/-- A partition artifact: the k-th chunk file written by split_input_file,
with its ordinal k, its file name, its line list, and the exact string
written to the file ('\n'.join(chunk_lines)). -/
structure Chunk where
  ordinal : Nat
  name : String
  lines : List String
  content : String
deriving DecidableEq, Repr

/-- Materialize the chunk line-lists as ordinal-tagged artifacts, mirroring
the body of the loop in split_input_file (chunk ordinal i // chunk_size is
the running chunk number). -/
def attachOrdinals (inputFile : String) : Nat → List (List String) → List Chunk
  | _, [] => []
  | i, c :: cs =>
    { ordinal := i
      name := inputFile ++ "_chunk_" ++ toString i ++ ".txt"
      lines := c
      content := String.intercalate "\n" c } :: attachOrdinals inputFile (i + 1) cs

/-- Embedding of split_input_file(input_file, num_chunks): read and normalize
the lines of the raw file content, then cut them into strides of
chunk_size = max(1, len(lines) // num_chunks). -/
def split_input_file (inputFile raw : String) (num_chunks : Nat) : List Chunk :=
  let lines := readStrippedLines raw
  attachOrdinals inputFile 0
    (chunksLoop (max 1 (lines.length / num_chunks)) lines.length lines)

/- External process model shared by run_inference_job and run_benchmark. -/

/-- How the external process (torchrun ...) would behave if launched: whether
the binary can be started at all, its exit code, its captured streams, and the
wall-clock duration it runs for when allowed to finish. -/
structure ProcBehavior where
  launches : Bool
  launchError : String
  exitCode : Nat
  stdout : String
  stderr : String
  duration : ℚ
deriving DecidableEq, Repr

/-- Result of subprocess.run(cmd, capture_output=True, check=True, timeout=?):
either the launch raises (missing binary), the timeout expires first, the
process exits nonzero (CalledProcessError, by check=True), or it succeeds. -/
inductive RunResult where
  | launchFail (msg : String)
  | timeoutExpired (elapsed : ℚ)
  | calledProcessError (stderr : String) (elapsed : ℚ)
  | ok (stdout : String) (elapsed : ℚ)
deriving DecidableEq, Repr

/-- Embedding of subprocess.run with check=True and an optional timeout:
with no timeout the process always runs to completion; with timeout T the
process is killed after T seconds if its duration exceeds T. -/
def subprocessRun (timeout : Option ℚ) (p : ProcBehavior) : RunResult :=
  if p.launches = false then RunResult.launchFail p.launchError
  else
    match timeout with
    | some T =>
      if T < p.duration then RunResult.timeoutExpired T
      else if p.exitCode ≠ 0 then RunResult.calledProcessError p.stderr p.duration
      else RunResult.ok p.stdout p.duration
    | none =>
      if p.exitCode ≠ 0 then RunResult.calledProcessError p.stderr p.duration
      else RunResult.ok p.stdout p.duration

/- Job plan and executor (parallel_inference.py). -/

/-- The job tuple (config_file, input_file, output_suffix, gpu_id) built in main. -/
structure JobConfig where
  config : String
  input_file : String
  output_suffix : String
  gpu : Nat
deriving DecidableEq, Repr, Inhabited

/-- The result dictionary returned by run_inference_job. The error field is
the optional 'error' key: present (carrying e.stderr) only on failure. No
branch ever stores the captured standard output in the dictionary. -/
structure JobOutcome where
  gpu : Nat
  success : Bool
  time : ℚ
  file : String
  error : Option String
deriving DecidableEq, Repr

/-- Embedding of run_inference_job (lines 28-37): subprocess.run with
check=True and no timeout, catching only subprocess.CalledProcessError.
Any other exception — in particular FileNotFoundError when the external
binary cannot be launched — propagates out uncaught (Except.error). -/
def run_inference_job (job : JobConfig) (p : ProcBehavior) : Except String JobOutcome :=
  match subprocessRun none p with
  | RunResult.ok _ elapsed =>
    Except.ok { gpu := job.gpu, success := true, time := elapsed,
                file := job.input_file, error := none }
  | RunResult.calledProcessError err elapsed =>
    Except.ok { gpu := job.gpu, success := false, time := elapsed,
                file := job.input_file, error := some err }
  | RunResult.launchFail msg => Except.error msg
  | RunResult.timeoutExpired _ => Except.error "unreachable: no timeout is passed"

/-- The outcome run_inference_job returns whenever the process launches:
success with no error text on exit code zero, failure carrying the captured
stderr otherwise; in both cases the elapsed time is the full process duration. -/
def jobOutcome (job : JobConfig) (p : ProcBehavior) : JobOutcome :=
  if p.exitCode = 0 then
    { gpu := job.gpu, success := true, time := p.duration,
      file := job.input_file, error := none }
  else
    { gpu := job.gpu, success := false, time := p.duration,
      file := job.input_file, error := some p.stderr }

/-- The collection loop of main (lines 100-106): for each completed future,
future.result() re-raises any exception the job function raised, which aborts
the loop; otherwise the outcome is appended. The input list is the stream of
job results in completion order. -/
def collectResults : List (Except String JobOutcome) → Except String (List JobOutcome)
  | [] => Except.ok []
  | Except.error e :: _ => Except.error e
  | Except.ok o :: rest =>
    match collectResults rest with
    | Except.ok os => Except.ok (o :: os)
    | Except.error e => Except.error e

/-- The round-robin chunk-to-device loop of main (lines 82-84):
for i, chunk_file in enumerate(chunk_files): gpu_id = gpu_ids[i % len(gpu_ids)].
The device list is passed as head :: tail so the modulus is positive. -/
def splitJobs (config : String) (g : Nat) (gs : List Nat) :
    Nat → List String → List JobConfig
  | _, [] => []
  | i, cf :: cfs =>
    { config := config, input_file := cf,
      output_suffix := "chunk_" ++ toString i,
      gpu := (g :: gs).get ⟨i % (g :: gs).length, Nat.mod_lt i (Nat.succ_pos gs.length)⟩ }
    :: splitJobs config g gs (i + 1) cfs

/-- Embedding of the job-plan construction in main (lines 77-89). In split
mode the chunk files are assigned devices round-robin; an empty device list
with a nonempty chunk list raises ZeroDivisionError on the first index
computation (i % 0 in Python), while an empty chunk list builds no jobs at
all. In broadcast mode the same input file is replicated per device and per
per-gpu job slot; no validation of any kind is performed. -/
def buildJobs (config input_file : String) (gpu_ids : List Nat) (per_gpu_jobs : Nat)
    (split_input : Bool) (chunk_files : List String) : Except String (List JobConfig) :=
  if split_input then
    match chunk_files, gpu_ids with
    | [], _ => Except.ok []
    | _ :: _, [] => Except.error "ZeroDivisionError: integer modulo by zero"
    | cf :: cfs, g :: gs => Except.ok (splitJobs config g gs 0 (cf :: cfs))
  else
    Except.ok (gpu_ids.flatMap fun g =>
      (List.range per_gpu_jobs).map fun j =>
        { config := config, input_file := input_file,
          output_suffix := "gpu" ++ toString g ++ "_job" ++ toString j, gpu := g })

/- Result Aggregator (parallel_inference.py lines 108-122). -/

/-- successful_jobs = [r for r in results if r['success']]. -/
def successfulJobs (results : List JobOutcome) : List JobOutcome :=
  results.filter (fun r => r.success)

/-- Python min over a nonempty collection, folded from the left. -/
def pyMin (t : ℚ) (ts : List ℚ) : ℚ := ts.foldl min t

/-- Python max over a nonempty collection, folded from the left. -/
def pyMax (t : ℚ) (ts : List ℚ) : ℚ := ts.foldl max t

/-- The per-batch statistics printed by main when at least one job succeeded. -/
structure Summary where
  avg_time : ℚ
  min_time : ℚ
  max_time : ℚ
  speedup : ℚ
deriving DecidableEq, Repr

/-- Embedding of the statistics block of main (lines 117-122): computed only
over the successful outcomes and only when there is at least one of them
(otherwise the block is skipped and no statistic — in particular no speedup —
is ever computed). -/
def summaryStats (results : List JobOutcome) (total_time : ℚ) : Option Summary :=
  match successfulJobs results with
  | [] => none
  | r :: rs =>
    let times := (r :: rs).map JobOutcome.time
    some { avg_time := times.sum / (rs.length + 1)
           min_time := pyMin r.time (rs.map JobOutcome.time)
           max_time := pyMax r.time (rs.map JobOutcome.time)
           speedup := times.sum / total_time }

/- Benchmark runner (speed_benchmark.py lines 22-88). -/

/-- The structured metrics map scraped from the captured standard output.
The scraping itself (float-parsing of matched lines) is domain-specific
functionality the specification declares out of scope, so it is abstracted
as a function parameter of the runner. -/
abbrev Metrics := List (String × ℚ)

/-- The result dictionary returned by run_benchmark; metrics and stdout keys
are present only on success, the error key only on failure. -/
structure BenchResult where
  config : String
  description : String
  success : Bool
  wall_time : ℚ
  metrics : Option Metrics
  stdout : Option String
  error : Option String
deriving DecidableEq, Repr

set_option linter.unusedVariables false in
/-- Embedding of run_benchmark (speed_benchmark.py lines 22-88):
subprocess.run with check=True and timeout=1800, catching TimeoutExpired
(recorded as a failed result with the literal error tag 'timeout') and
CalledProcessError (recorded as a failed result carrying the last 500
characters of stderr); a launch failure is uncaught here as well. The
test-input path is only interpolated into the launched command line, which
the process model abstracts, so it does not influence the result. -/
def run_benchmark (scrape : String → Metrics) (config_file test_input description : String)
    (p : ProcBehavior) : Except String BenchResult :=
  match subprocessRun (some 1800) p with
  | RunResult.ok out elapsed =>
    Except.ok { config := config_file, description := description, success := true,
                wall_time := elapsed, metrics := some (scrape out),
                stdout := some (pyTail 1000 out), error := none }
  | RunResult.timeoutExpired elapsed =>
    Except.ok { config := config_file, description := description, success := false,
                wall_time := elapsed, metrics := none, stdout := none,
                error := some "timeout" }
  | RunResult.calledProcessError err elapsed =>
    Except.ok { config := config_file, description := description, success := false,
                wall_time := elapsed, metrics := none, stdout := none,
                error := some (pyTail 500 err) }
  | RunResult.launchFail msg => Except.error msg

/- Concrete scenarios used to instantiate the properties below. -/

/-- A job descriptor for the first chunk, bound to device 0. -/
def demoJobA : JobConfig := ⟨"configs/inference.yaml", "prompts.txt_chunk_0.txt", "chunk_0", 0⟩

/-- A job descriptor for the second chunk, bound to device 1. -/
def demoJobB : JobConfig := ⟨"configs/inference.yaml", "prompts.txt_chunk_1.txt", "chunk_1", 1⟩

/-- A job descriptor for the third chunk, bound to device 2. -/
def demoJobC : JobConfig := ⟨"configs/inference.yaml", "prompts.txt_chunk_2.txt", "chunk_2", 2⟩

/-- A job descriptor for the fourth chunk, bound to device 0 again. -/
def demoJobD : JobConfig := ⟨"configs/inference.yaml", "prompts.txt_chunk_3.txt", "chunk_3", 0⟩

/-- An external process whose binary cannot be started at all. -/
def procNoLaunch : ProcBehavior := ⟨false, "FileNotFoundError: torchrun", 0, "", "", 1⟩

/-- A well-behaved external process exiting 0 after 2 seconds. -/
def procOk : ProcBehavior := ⟨true, "", 0, "frames written", "", 2⟩

/-- An external process that runs for 3 seconds and exits nonzero. -/
def procFail : ProcBehavior := ⟨true, "", 1, "", "CUDA out of memory", 3⟩

/-- An external process that would run for a billion seconds and then exit 0. -/
def procSlow : ProcBehavior := ⟨true, "", 0, "done", "", 1000000000⟩

/-- An external process that runs for 2000 seconds, beyond the 1800-second
benchmark ceiling, and would then exit 0. -/
def procSlow2000 : ProcBehavior := ⟨true, "", 0, "out", "", 2000⟩

/-- A successful process with nonempty captured standard output. -/
def procChatty : ProcBehavior := ⟨true, "", 0, "metrics: 42 it per s", "", 5⟩

/-- A successful process identical to procChatty except for its standard output. -/
def procQuiet : ProcBehavior := ⟨true, "", 0, "", "", 5⟩

/-- A successful outcome that took 2 seconds. -/
def demoOut1 : JobOutcome := ⟨0, true, 2, "prompts.txt_chunk_0.txt", none⟩

/-- A successful outcome that took 4 seconds. -/
def demoOut2 : JobOutcome := ⟨1, true, 4, "prompts.txt_chunk_1.txt", none⟩

/-- A successful outcome that took 6 seconds. -/
def demoOut3 : JobOutcome := ⟨2, true, 6, "prompts.txt_chunk_2.txt", none⟩

/-- A failed outcome, excluded from the timing statistics. -/
def demoOutFail : JobOutcome := ⟨3, false, 9, "prompts.txt_chunk_3.txt", some "err"⟩

/-- The job plan the split-mode builder produces for five chunks on
devices 0, 1, 2. -/
def demoPlan : List JobConfig :=
  [⟨"cfg", "a", "chunk_0", 0⟩, ⟨"cfg", "b", "chunk_1", 1⟩, ⟨"cfg", "c", "chunk_2", 2⟩,
   ⟨"cfg", "d", "chunk_3", 0⟩, ⟨"cfg", "e", "chunk_4", 1⟩]

/- Helper lemmas about the partitioner. -/

theorem pyStripList_eq (cs : List Char) :
    pyStripList cs = List.rdropWhile pyIsSpace (List.dropWhile pyIsSpace cs) := rfl

/-- Stripping is idempotent: a stripped string has no leading or trailing
whitespace left, so stripping it again changes nothing. -/
theorem pyStripList_idem (cs : List Char) :
    pyStripList (pyStripList cs) = pyStripList cs := by
  rw [pyStripList_eq, pyStripList_eq]
  set A := List.dropWhile pyIsSpace cs with hA
  have h1 : List.dropWhile pyIsSpace (List.rdropWhile pyIsSpace A)
      = List.rdropWhile pyIsSpace A := by
    rw [List.dropWhile_eq_self_iff]
    intro hl
    have hpre : List.rdropWhile pyIsSpace A <+: A := List.rdropWhile_prefix _ _
    have hlen : 0 < A.length := hl.trans_le (List.IsPrefix.length_le hpre)
    have hget := List.IsPrefix.getElem hpre hl
    simp only [← List.get_eq_getElem] at hget
    rw [List.get_eq_getElem, hget]
    have := List.dropWhile_get_zero_not pyIsSpace cs (by rw [← hA] at *; exact hlen)
    simpa [← hA, List.get_eq_getElem] using this
  rw [h1, List.rdropWhile_idempotent]

theorem pyStrip_of_mem_readStrippedLines {raw item : String}
    (h : item ∈ readStrippedLines raw) : item ≠ "" ∧ pyStrip item = item := by
  unfold readStrippedLines at h
  rw [List.mem_filter] at h
  obtain ⟨hmem, hne⟩ := h
  refine ⟨by simpa using hne, ?_⟩
  rw [List.mem_map] at hmem
  obtain ⟨l, -, rfl⟩ := hmem
  show String.mk (pyStripList (String.mk (pyStripList l)).data) = _
  simp [pyStripList_idem]

/-- The chunking loop concatenates back to its input whenever the stride is
positive and the fuel covers the list length (both hold at the call site). -/
theorem chunksLoop_join {α : Type} (cs : Nat) (hcs : cs ≠ 0) :
    ∀ (fuel : Nat) (xs : List α), xs.length ≤ fuel → (chunksLoop cs fuel xs).flatten = xs := by
  intro fuel
  induction fuel with
  | zero =>
    intro xs h
    have hx : xs = [] := List.length_eq_zero.mp (Nat.le_zero.mp h)
    subst hx; rfl
  | succ n ih =>
    intro xs h
    cases xs with
    | nil => rfl
    | cons x t =>
      have hlen : ((x :: t).drop cs).length ≤ n := by
        rw [List.length_drop]
        simp only [List.length_cons] at h ⊢
        omega
      show ((x :: t).take cs :: chunksLoop cs n ((x :: t).drop cs)).flatten = x :: t
      rw [List.flatten_cons, ih _ hlen, List.take_append_drop]

/-- Every element of every chunk comes from the chunked list. -/
theorem chunksLoop_mem {α : Type} (cs : Nat) :
    ∀ (fuel : Nat) (xs c : List α), c ∈ chunksLoop cs fuel xs → ∀ a ∈ c, a ∈ xs := by
  intro fuel
  induction fuel with
  | zero => intro xs c hc; simp [chunksLoop] at hc
  | succ n ih =>
    intro xs c hc a ha
    cases xs with
    | nil => simp [chunksLoop] at hc
    | cons x t =>
      simp only [chunksLoop, List.mem_cons] at hc
      rcases hc with rfl | hc
      · exact List.take_subset _ _ ha
      · exact List.drop_subset _ _ (ih _ _ hc a ha)

theorem attachOrdinals_map_lines (f : String) :
    ∀ (i : Nat) (css : List (List String)),
      (attachOrdinals f i css).map Chunk.lines = css := by
  intro i css
  induction css generalizing i with
  | nil => rfl
  | cons c cs ih => simp [attachOrdinals, ih]

theorem attachOrdinals_map_ordinal (f : String) :
    ∀ (i : Nat) (css : List (List String)),
      (attachOrdinals f i css).map Chunk.ordinal = List.range' i css.length := by
  intro i css
  induction css generalizing i with
  | nil => rfl
  | cons c cs ih => simp [attachOrdinals, ih, List.range'_succ]

theorem attachOrdinals_length (f : String) (i : Nat) (css : List (List String)) :
    (attachOrdinals f i css).length = css.length := by
  calc (attachOrdinals f i css).length
      = ((attachOrdinals f i css).map Chunk.lines).length := (List.length_map _ _).symm
    _ = css.length := by rw [attachOrdinals_map_lines]

theorem mem_attachOrdinals (f : String) :
    ∀ (i : Nat) (css : List (List String)) (c : Chunk), c ∈ attachOrdinals f i css →
      c.lines ∈ css ∧ c.content = String.intercalate "\n" c.lines := by
  intro i css
  induction css generalizing i with
  | nil => intro c hc; simp [attachOrdinals] at hc
  | cons l ls ih =>
    intro c hc
    simp only [attachOrdinals, List.mem_cons] at hc
    rcases hc with rfl | hc
    · exact ⟨List.mem_cons_self _ _, rfl⟩
    · obtain ⟨h1, h2⟩ := ih _ c hc
      exact ⟨List.mem_cons_of_mem _ h1, h2⟩

/- Helper lemmas about the executor, the plan builder and the aggregator. -/

/-- Whenever the external process launches, run_inference_job returns normally
with the outcome described by jobOutcome: CalledProcessError is the only
exception the function can see, and it is caught. -/
theorem run_inference_job_ok (job : JobConfig) (p : ProcBehavior)
    (hl : p.launches = true) :
    run_inference_job job p = Except.ok (jobOutcome job p) := by
  unfold run_inference_job subprocessRun jobOutcome
  rw [hl]
  by_cases h0 : p.exitCode = 0 <;> simp [h0]

/-- Collecting a stream of normally-returned outcomes never aborts and keeps
them all, in arrival order. -/
theorem collectResults_map_ok {β : Type} (f : β → JobOutcome) :
    ∀ l : List β, collectResults (l.map fun b => Except.ok (f b)) = Except.ok (l.map f) := by
  intro l
  induction l with
  | nil => rfl
  | cons b bs ih => simp [collectResults, ih]

theorem splitJobs_map_input (config : String) (g : Nat) (gs : List Nat) :
    ∀ (i : Nat) (cfs : List String),
      (splitJobs config g gs i cfs).map JobConfig.input_file = cfs := by
  intro i cfs
  induction cfs generalizing i with
  | nil => rfl
  | cons cf cfs ih => simp [splitJobs, ih]

theorem splitJobs_length (config : String) (g : Nat) (gs : List Nat)
    (i : Nat) (cfs : List String) : (splitJobs config g gs i cfs).length = cfs.length := by
  calc (splitJobs config g gs i cfs).length
      = ((splitJobs config g gs i cfs).map JobConfig.input_file).length :=
        (List.length_map _ _).symm
    _ = cfs.length := by rw [splitJobs_map_input]

/-- The k-th job built by the round-robin loop started at index i is bound to
device number (i + k) mod the device count. -/
theorem splitJobs_gpu (config : String) (g : Nat) (gs : List Nat) :
    ∀ (cfs : List String) (i k : Nat), k < cfs.length →
      ((splitJobs config g gs i cfs).getD k default).gpu
        = (g :: gs).getD ((i + k) % (g :: gs).length) 0 := by
  intro cfs
  induction cfs with
  | nil => intro i k hk; simp at hk
  | cons cf cfs ih =>
    intro i k hk
    cases k with
    | zero =>
      have hlt : i % (g :: gs).length < (g :: gs).length :=
        Nat.mod_lt i (Nat.succ_pos gs.length)
      simp only [splitJobs, List.getD_cons_zero, Nat.add_zero]
      rw [List.getD_eq_getElem?_getD, List.getElem?_eq_getElem hlt]
      simp [List.get_eq_getElem]
    | succ k =>
      simp only [splitJobs, List.getD_cons_succ]
      rw [ih (i + 1) k (by simpa using Nat.lt_of_succ_lt_succ hk)]
      have h2 : i + 1 + k = i + (k + 1) := by omega
      rw [h2]

theorem pyMin_mem (t : ℚ) : ∀ ts : List ℚ, pyMin t ts ∈ t :: ts := by
  intro ts
  induction ts generalizing t with
  | nil => simp [pyMin]
  | cons x xs ih =>
    have h := ih (min t x)
    rcases List.mem_cons.mp h with h | h
    · rcases min_choice t x with hm | hm <;>
        simp only [pyMin, List.foldl_cons] at h ⊢ <;> rw [h, hm] <;> simp
    · simp only [pyMin, List.foldl_cons]
      exact List.mem_cons_of_mem _ (List.mem_cons_of_mem _ h)

theorem pyMin_le (t : ℚ) : ∀ (ts : List ℚ) (x : ℚ), x ∈ t :: ts → pyMin t ts ≤ x := by
  intro ts
  induction ts generalizing t with
  | nil => intro x hx; simp at hx; simp [pyMin, hx]
  | cons y ys ih =>
    intro x hx
    simp only [pyMin, List.foldl_cons]
    rcases List.mem_cons.mp hx with rfl | hx
    · exact le_trans (ih (min x y) (min x y) (List.mem_cons_self _ _)) (min_le_left _ _)
    rcases List.mem_cons.mp hx with rfl | hx
    · exact le_trans (ih (min t x) (min t x) (List.mem_cons_self _ _)) (min_le_right _ _)
    · exact ih (min t y) x (List.mem_cons_of_mem _ hx)

theorem pyMax_mem (t : ℚ) : ∀ ts : List ℚ, pyMax t ts ∈ t :: ts := by
  intro ts
  induction ts generalizing t with
  | nil => simp [pyMax]
  | cons x xs ih =>
    have h := ih (max t x)
    rcases List.mem_cons.mp h with h | h
    · rcases max_choice t x with hm | hm <;>
        simp only [pyMax, List.foldl_cons] at h ⊢ <;> rw [h, hm] <;> simp
    · simp only [pyMax, List.foldl_cons]
      exact List.mem_cons_of_mem _ (List.mem_cons_of_mem _ h)

theorem pyMax_ge (t : ℚ) : ∀ (ts : List ℚ) (x : ℚ), x ∈ t :: ts → x ≤ pyMax t ts := by
  intro ts
  induction ts generalizing t with
  | nil => intro x hx; simp at hx; simp [pyMax, hx]
  | cons y ys ih =>
    intro x hx
    simp only [pyMax, List.foldl_cons]
    rcases List.mem_cons.mp hx with rfl | hx
    · exact le_trans (le_max_left _ _) (ih (max x y) (max x y) (List.mem_cons_self _ _))
    rcases List.mem_cons.mp hx with rfl | hx
    · exact le_trans (le_max_right _ _) (ih (max t x) (max t x) (List.mem_cons_self _ _))
    · exact ih (max t y) x (List.mem_cons_of_mem _ hx)

/- Claim theorems. -/

/-- Claim C1: the claim states that the number of chunks produced by the
partitioner never exceeds targetCount. The code violates this: for 5 items
and targetCount 3 the chunk size is max(1, 5 // 3) = 1 and the stride loop
produces 5 chunks, more than the requested 3 (the spec's description of the
remainder attaching to the last chunk is not what the code does). This
theorem evaluates the embedded partitioner at that failing input. -/
theorem C1_partition_count_exceeds_target :
    (split_input_file "prompts.txt" "a\nb\nc\nd\ne" 3).length = 5
    ∧ ¬((split_input_file "prompts.txt" "a\nb\nc\nd\ne" 3).length ≤ 3) := by
  constructor <;> decide

set_option linter.unusedVariables false in
/-- Claim C2: for every non-empty workload and every targetCount >= 1,
concatenating the produced chunks in ordinal order (the ordinals are exactly
0, 1, 2, ... in list order) yields the original sequence of items: nothing
is dropped, duplicated or reordered. -/
theorem C2_partition_roundtrip (name raw : String) (n : Nat)
    (hne : readStrippedLines raw ≠ []) (hn : 1 ≤ n) :
    ((split_input_file name raw n).map Chunk.lines).flatten = readStrippedLines raw
    ∧ (split_input_file name raw n).map Chunk.ordinal
        = List.range (split_input_file name raw n).length := by
  have hcs : max 1 ((readStrippedLines raw).length / n) ≠ 0 := by
    have := Nat.le_max_left 1 ((readStrippedLines raw).length / n)
    omega
  constructor
  · simp only [split_input_file]
    rw [attachOrdinals_map_lines, chunksLoop_join _ hcs _ _ le_rfl]
  · simp only [split_input_file]
    rw [attachOrdinals_map_ordinal, attachOrdinals_length, List.range_eq_range']

/-- Witness for C2 at the concrete input "a\nb\nc" with targetCount 2. -/
theorem C2_partition_roundtrip_witness :
    readStrippedLines "a\nb\nc" ≠ [] ∧ 1 ≤ 2
    ∧ ((split_input_file "f.txt" "a\nb\nc" 2).map Chunk.lines).flatten
        = readStrippedLines "a\nb\nc"
    ∧ (split_input_file "f.txt" "a\nb\nc" 2).map Chunk.ordinal
        = List.range (split_input_file "f.txt" "a\nb\nc" 2).length :=
  ⟨by decide, by decide,
   (C2_partition_roundtrip "f.txt" "a\nb\nc" 2 (by decide) (by decide)).1,
   (C2_partition_roundtrip "f.txt" "a\nb\nc" 2 (by decide) (by decide)).2⟩

/-- Claim C7 counterexample: the claim states that partitioning an empty
workload fails with an EmptyWorkloadError rather than returning a result.
The code raises nothing on this path (the embedding is accordingly total):
split_input_file on content with no non-blank lines simply returns the
empty chunk list — a normal result, and no EmptyWorkloadError exists
anywhere in the repository. -/
theorem C7_empty_workload_cex :
    split_input_file "prompts.txt" "" 3 = [] := by decide

/-- Claim C7 amended: for every targetCount, partitioning an empty workload
(an input with no non-blank lines) raises no error and returns the empty
list of partitions, so split mode then creates zero jobs. -/
theorem C7_empty_workload_returns_empty (name raw : String) (n : Nat)
    (h : readStrippedLines raw = []) : split_input_file name raw n = [] := by
  simp [split_input_file, h, chunksLoop, attachOrdinals]

/-- Witness for the amended C7 at a whitespace-only input. -/
theorem C7_empty_workload_returns_empty_witness :
    readStrippedLines " \n\t\n" = [] ∧ split_input_file "prompts.txt" " \n\t\n" 3 = [] :=
  ⟨by decide, C7_empty_workload_returns_empty "prompts.txt" " \n\t\n" 3 (by decide)⟩

/-- Claim C10: the partitioner normalizes the workload before chunking:
every item stored in any partition artifact is a non-empty, already-stripped
member of the normalized line list of the source, and each artifact's
content is its items joined by single newlines. The raw byte content of the
source is not preserved: a source with surrounding whitespace and a blank
line round-trips to a strictly different artifact content. -/
theorem C10_partition_normalization :
    (∀ (name raw : String) (n : Nat) (c : Chunk), c ∈ split_input_file name raw n →
      c.content = String.intercalate "\n" c.lines
      ∧ ∀ item ∈ c.lines,
          item ≠ "" ∧ pyStrip item = item ∧ item ∈ readStrippedLines raw)
    ∧ (split_input_file "f" " a \n\nb" 1).map Chunk.content = ["a\nb"]
    ∧ " a \n\nb" ≠ "a\nb" := by
  refine ⟨?_, by decide, by decide⟩
  intro name raw n c hc
  have hmem := mem_attachOrdinals name 0 _ c (by simpa [split_input_file] using hc)
  refine ⟨hmem.2, ?_⟩
  intro item hitem
  have hin : item ∈ readStrippedLines raw :=
    chunksLoop_mem _ _ _ _ hmem.1 item hitem
  obtain ⟨h1, h2⟩ := pyStrip_of_mem_readStrippedLines hin
  exact ⟨h1, h2, hin⟩

/-- Witness for C10 at the concrete source "x\ny" split into one chunk. -/
theorem C10_partition_normalization_witness :
    (⟨0, "f_chunk_0.txt", ["x", "y"], "x\ny"⟩ : Chunk) ∈ split_input_file "f" "x\ny" 1
    ∧ (⟨0, "f_chunk_0.txt", ["x", "y"], "x\ny"⟩ : Chunk).content
        = String.intercalate "\n" ["x", "y"]
    ∧ "x" ≠ "" ∧ pyStrip "x" = "x" ∧ "x" ∈ readStrippedLines "x\ny" := by
  obtain ⟨hcontent, hitems⟩ :=
    C10_partition_normalization.1 "f" "x\ny" 1
      ⟨0, "f_chunk_0.txt", ["x", "y"], "x\ny"⟩ (by decide)
  obtain ⟨h1, h2, h3⟩ := hitems "x" (by decide)
  exact ⟨by decide, hcontent, h1, h2, h3⟩

/-- Claim C3 counterexample: the claim states that a failure to launch the
external process never drops that job's outcome and never prevents the
remaining jobs from being reported. The code catches only CalledProcessError,
so the FileNotFoundError raised when the binary is missing is re-raised by
future.result() inside the collection loop: for a two-job batch whose first
completed job failed to launch, collection aborts with the exception and no
outcome list — in particular not the second job's outcome — is produced. -/
theorem C3_launch_failure_drops_outcomes :
    collectResults
        ([(demoJobA, procNoLaunch), (demoJobB, procOk)].map
          fun jb => run_inference_job jb.1 jb.2)
      = Except.error "FileNotFoundError: torchrun" := by rfl

/-- Claim C3 amended: for every batch of N descriptors whose external
processes all launch (exiting zero or nonzero), the collection loop produces
exactly N outcomes, one per descriptor, in every completion order; a nonzero
exit is caught and recorded, never dropping an outcome or stopping the
others. A launch failure, however, is an uncaught exception that aborts
outcome collection (see the counterexample). -/
theorem C3_executor_outcomes (jobs arrival : List (JobConfig × ProcBehavior))
    (hperm : arrival.Perm jobs)
    (hlaunch : ∀ jb ∈ jobs, jb.2.launches = true) :
    collectResults (arrival.map fun jb => run_inference_job jb.1 jb.2)
      = Except.ok (arrival.map fun jb => jobOutcome jb.1 jb.2)
    ∧ (arrival.map fun jb => jobOutcome jb.1 jb.2).length = jobs.length
    ∧ (arrival.map fun jb => jobOutcome jb.1 jb.2).Perm
        (jobs.map fun jb => jobOutcome jb.1 jb.2) := by
  have hmap : (arrival.map fun jb => run_inference_job jb.1 jb.2)
      = arrival.map fun jb => Except.ok (jobOutcome jb.1 jb.2) := by
    apply List.map_congr_left
    intro jb hjb
    exact run_inference_job_ok jb.1 jb.2 (hlaunch jb (hperm.mem_iff.mp hjb))
  refine ⟨?_, ?_, hperm.map _⟩
  · rw [hmap]; exact collectResults_map_ok _ arrival
  · rw [List.length_map, hperm.length_eq]

/-- Witness for the amended C3: four submitted jobs, one of which fails with
a nonzero exit, arriving in an order different from submission order, still
produce exactly four outcomes. -/
theorem C3_executor_outcomes_witness :
    collectResults
        ([(demoJobB, procFail), (demoJobD, procOk), (demoJobA, procOk), (demoJobC, procOk)].map
          fun jb => run_inference_job jb.1 jb.2)
      = Except.ok
          ([(demoJobB, procFail), (demoJobD, procOk), (demoJobA, procOk), (demoJobC, procOk)].map
            fun jb => jobOutcome jb.1 jb.2)
    ∧ ([(demoJobB, procFail), (demoJobD, procOk), (demoJobA, procOk), (demoJobC, procOk)].map
          fun jb => jobOutcome jb.1 jb.2).length
        = ([(demoJobA, procOk), (demoJobB, procFail), (demoJobC, procOk), (demoJobD, procOk)]
            : List (JobConfig × ProcBehavior)).length
    ∧ ([(demoJobB, procFail), (demoJobD, procOk), (demoJobA, procOk), (demoJobC, procOk)].map
          fun jb => jobOutcome jb.1 jb.2).Perm
        ([(demoJobA, procOk), (demoJobB, procFail), (demoJobC, procOk), (demoJobD, procOk)].map
          fun jb => jobOutcome jb.1 jb.2) :=
  C3_executor_outcomes
    [(demoJobA, procOk), (demoJobB, procFail), (demoJobC, procOk), (demoJobD, procOk)]
    [(demoJobB, procFail), (demoJobD, procOk), (demoJobA, procOk), (demoJobC, procOk)]
    (by decide) (by decide)

/-- Claim C4 counterexample: the claim states that a job run by the parallel
executor whose process exceeds the wall-clock ceiling is forcibly terminated
and recorded as a failed outcome with a timeout tag. The executor's job
runner passes no timeout at all to subprocess.run: a process running for a
billion seconds — far beyond the 1800-second ceiling the benchmark script
uses — still runs to natural completion and is recorded as a plain success
with the full duration and no error tag. -/
theorem C4_no_executor_ceiling_cex :
    (1800 : ℚ) < procSlow.duration
    ∧ run_inference_job demoJobA procSlow
        = Except.ok { gpu := 0, success := true, time := 1000000000,
                      file := "prompts.txt_chunk_0.txt", error := none } := by
  constructor
  · norm_num [procSlow]
  · rfl

/-- Claim C4 amended: jobs run by the parallel executor have no wall-clock
ceiling — run_inference_job invokes the process without a timeout, every
launching process runs to natural completion and its full duration is
recorded. Only the sequential benchmark runner enforces a ceiling: a process
exceeding 1800 seconds is terminated there and recorded as a failed result
with the distinct error tag "timeout". -/
theorem C4_timeout_only_in_benchmark (job : JobConfig) (p : ProcBehavior)
    (scrape : String → Metrics) (cfg ti desc : String) (hl : p.launches = true) :
    run_inference_job job p = Except.ok (jobOutcome job p)
    ∧ (jobOutcome job p).time = p.duration
    ∧ (1800 < p.duration →
        run_benchmark scrape cfg ti desc p
          = Except.ok { config := cfg, description := desc, success := false,
                        wall_time := 1800, metrics := none, stdout := none,
                        error := some "timeout" }) := by
  refine ⟨run_inference_job_ok job p hl, ?_, ?_⟩
  · unfold jobOutcome; by_cases h : p.exitCode = 0 <;> simp [h]
  · intro hd
    unfold run_benchmark subprocessRun
    rw [hl]
    simp [hd]

/-- Witness for the amended C4: a 2000-second process completes normally
under the executor but is recorded as a "timeout" failure by the benchmark. -/
theorem C4_timeout_only_in_benchmark_witness :
    procSlow2000.launches = true
    ∧ run_inference_job demoJobA procSlow2000 = Except.ok (jobOutcome demoJobA procSlow2000)
    ∧ run_benchmark (fun _ => []) "configs/inference.yaml" "test.txt" "Original 14B" procSlow2000
        = Except.ok { config := "configs/inference.yaml", description := "Original 14B",
                      success := false, wall_time := 1800, metrics := none,
                      stdout := none, error := some "timeout" } :=
  ⟨rfl,
   (C4_timeout_only_in_benchmark demoJobA procSlow2000 (fun _ => [])
     "configs/inference.yaml" "test.txt" "Original 14B" rfl).1,
   (C4_timeout_only_in_benchmark demoJobA procSlow2000 (fun _ => [])
     "configs/inference.yaml" "test.txt" "Original 14B" rfl).2.2 (by norm_num [procSlow2000])⟩

/-- Claim C5 counterexample: the claim states that a zero-exit job yields a
success outcome carrying the captured standard output. The success branch of
run_inference_job builds its result dictionary from gpu, success, time and
file only: two processes identical except for their captured standard output
produce the very same outcome, so the outcome cannot carry the output. -/
theorem C5_stdout_not_carried_cex :
    procChatty.stdout ≠ procQuiet.stdout
    ∧ run_inference_job demoJobA procChatty = run_inference_job demoJobA procQuiet
    ∧ run_inference_job demoJobA procChatty
        = Except.ok { gpu := 0, success := true, time := 5,
                      file := "prompts.txt_chunk_0.txt", error := none } :=
  ⟨by decide, rfl, rfl⟩

/-- Claim C5 amended: for every launching process, exit code zero yields a
success outcome (success = true, no error text) whose captured standard
output is discarded — the outcome does not depend on it — while a nonzero
exit yields a failure outcome (success = false) carrying the captured
standard error text. -/
theorem C5_outcome_capture (job : JobConfig) (p : ProcBehavior)
    (hl : p.launches = true) :
    (p.exitCode = 0 →
      run_inference_job job p
        = Except.ok { gpu := job.gpu, success := true, time := p.duration,
                      file := job.input_file, error := none })
    ∧ (p.exitCode ≠ 0 →
      run_inference_job job p
        = Except.ok { gpu := job.gpu, success := false, time := p.duration,
                      file := job.input_file, error := some p.stderr })
    ∧ (∀ out2 : String,
        run_inference_job job { p with stdout := out2 } = run_inference_job job p) := by
  refine ⟨?_, ?_, ?_⟩
  · intro h0
    rw [run_inference_job_ok job p hl]
    unfold jobOutcome
    simp [h0]
  · intro h0
    rw [run_inference_job_ok job p hl]
    unfold jobOutcome
    simp [h0]
  · intro out2
    rw [run_inference_job_ok job p hl, run_inference_job_ok job _ (by simpa using hl)]
    unfold jobOutcome
    by_cases h0 : p.exitCode = 0 <;> simp [h0]

/-- Witness for the amended C5: a zero-exit and a nonzero-exit process. -/
theorem C5_outcome_capture_witness :
    run_inference_job demoJobA procOk
      = Except.ok { gpu := 0, success := true, time := 2,
                    file := "prompts.txt_chunk_0.txt", error := none }
    ∧ run_inference_job demoJobB procFail
      = Except.ok { gpu := 1, success := false, time := 3,
                    file := "prompts.txt_chunk_1.txt", error := some "CUDA out of memory" } :=
  ⟨(C5_outcome_capture demoJobA procOk rfl).1 rfl,
   (C5_outcome_capture demoJobB procFail rfl).2.1 (by decide)⟩

/-- Claim C6: the final statistics depend only on the successful outcomes
(failed outcomes are excluded); when at least one job succeeded the reported
speedup is the sum of the successful durations divided by the observed
wall-clock batch duration, the average is that sum divided by the success
count, and min/max are attained members of the successful durations; when no
job succeeded no statistic is computed at all — undefined rather than a
division by zero. -/
theorem C6_aggregator_stats (results : List JobOutcome) (t : ℚ) :
    (successfulJobs results = [] → summaryStats results t = none)
    ∧ (∀ other : List JobOutcome, successfulJobs other = successfulJobs results →
        summaryStats other t = summaryStats results t)
    ∧ (∀ (r : JobOutcome) (rs : List JobOutcome), successfulJobs results = r :: rs →
        ∃ st, summaryStats results t = some st
          ∧ st.speedup = ((r :: rs).map JobOutcome.time).sum / t
          ∧ st.avg_time = ((r :: rs).map JobOutcome.time).sum / (rs.length + 1)
          ∧ st.min_time ∈ (r :: rs).map JobOutcome.time
          ∧ (∀ x ∈ (r :: rs).map JobOutcome.time, st.min_time ≤ x)
          ∧ st.max_time ∈ (r :: rs).map JobOutcome.time
          ∧ (∀ x ∈ (r :: rs).map JobOutcome.time, x ≤ st.max_time)) := by
  refine ⟨?_, ?_, ?_⟩
  · intro h; unfold summaryStats; rw [h]
  · intro other h; unfold summaryStats; rw [h]
  · intro r rs h
    unfold summaryStats
    rw [h]
    refine ⟨_, rfl, rfl, rfl, ?_, ?_, ?_, ?_⟩
    · simpa using pyMin_mem r.time (rs.map JobOutcome.time)
    · intro x hx
      exact pyMin_le r.time (rs.map JobOutcome.time) x (by simpa using hx)
    · simpa using pyMax_mem r.time (rs.map JobOutcome.time)
    · intro x hx
      exact pyMax_ge r.time (rs.map JobOutcome.time) x (by simpa using hx)

/-- Witness for C6: durations [2, 4, 6] with wall time 6 give speedup 2,
average 4, min 2 and max 6; a batch with zero successes yields no stats. -/
theorem C6_aggregator_stats_witness :
    summaryStats [demoOut1, demoOut2, demoOut3] 6 = some ⟨4, 2, 6, 2⟩
    ∧ summaryStats [demoOutFail] 6 = none := by
  have hcomp : summaryStats [demoOut1, demoOut2, demoOut3] 6 = some ⟨4, 2, 6, 2⟩ := by
    simp [summaryStats, successfulJobs, demoOut1, demoOut2, demoOut3, pyMin, pyMax]
    norm_num
  exact ⟨hcomp, (C6_aggregator_stats [demoOutFail] 6).1 (by decide)⟩

/-- Claim C8 counterexample: the claim states that plan building fails with
an InvalidPlanError whenever the device list is empty or perDeviceJobs is
less than 1. The code performs no validation: in broadcast mode an empty
device list or a zero perDeviceJobs yields a normally returned empty plan,
and no InvalidPlanError exists anywhere in the repository. -/
theorem C8_no_plan_validation_cex :
    buildJobs "configs/inference.yaml" "prompts.txt" [] 1 false [] = Except.ok []
    ∧ buildJobs "configs/inference.yaml" "prompts.txt" [0] 0 false [] = Except.ok [] :=
  ⟨rfl, rfl⟩

/-- Claim C8 amended: the plan builder never raises an InvalidPlanError. In
broadcast mode it always returns a plan of exactly len(devices) *
perDeviceJobs jobs — the empty plan for an empty device list or zero
perDeviceJobs, rather than an error. In split mode an empty device list with
a nonempty chunk list fails with a ZeroDivisionError from the round-robin
index computation, still not a validation error. -/
theorem C8_plan_builder_never_validates (config input_file cf : String)
    (gpus : List Nat) (per : Nat) (cfs chunk_files : List String) :
    (∃ plan, buildJobs config input_file gpus per false chunk_files = Except.ok plan
        ∧ plan.length = gpus.length * per)
    ∧ buildJobs config input_file [] per false chunk_files = Except.ok []
    ∧ buildJobs config input_file gpus 0 false chunk_files = Except.ok []
    ∧ buildJobs config input_file [] per true (cf :: cfs)
        = Except.error "ZeroDivisionError: integer modulo by zero" := by
  refine ⟨⟨_, rfl, ?_⟩, rfl, ?_, rfl⟩
  · induction gpus with
    | nil => simp
    | cons g gs ih =>
      simp only [List.flatMap_cons, List.length_append, List.length_map,
        List.length_range, List.length_cons] at ih ⊢
      rw [ih]
      ring
  · simp [buildJobs]

/-- Claim C9: in split mode, with a non-empty device list, the i-th chunk is
bound to devices[i mod len(devices)], every chunk appears in exactly one job
descriptor (the descriptors' input files are exactly the chunk list, in
order), and the assignment is a pure function of the inputs, hence
deterministic. -/
theorem C9_split_round_robin (config input_file : String) (gpus : List Nat)
    (per : Nat) (cfs : List String) (hg : gpus ≠ []) :
    ∃ plan, buildJobs config input_file gpus per true cfs = Except.ok plan
      ∧ plan.map JobConfig.input_file = cfs
      ∧ plan.length = cfs.length
      ∧ ∀ k, k < plan.length →
          (plan.getD k default).gpu = gpus.getD (k % gpus.length) 0 := by
  cases gpus with
  | nil => exact absurd rfl hg
  | cons g gs =>
    cases cfs with
    | nil =>
      refine ⟨[], rfl, rfl, rfl, ?_⟩
      intro k hk
      simp at hk
    | cons cf cfs =>
      refine ⟨splitJobs config g gs 0 (cf :: cfs), rfl,
        splitJobs_map_input config g gs 0 (cf :: cfs),
        splitJobs_length config g gs 0 (cf :: cfs), ?_⟩
      intro k hk
      rw [splitJobs_length] at hk
      have := splitJobs_gpu config g gs (cf :: cfs) 0 k hk
      simpa using this

/-- Witness for C9: five chunks over devices [0, 1, 2] yield the device
sequence [0, 1, 2, 0, 1]. -/
theorem C9_split_round_robin_witness :
    buildJobs "cfg" "in" [0, 1, 2] 1 true ["a", "b", "c", "d", "e"] = Except.ok demoPlan
    ∧ demoPlan.map JobConfig.gpu = [0, 1, 2, 0, 1]
    ∧ (demoPlan.getD 3 default).gpu = [0, 1, 2].getD (3 % 3) 0 := by
  obtain ⟨plan, h1, -, -, hgpu⟩ :=
    C9_split_round_robin "cfg" "in" [0, 1, 2] 1 ["a", "b", "c", "d", "e"] (by decide)
  have hcomp : buildJobs "cfg" "in" [0, 1, 2] 1 true ["a", "b", "c", "d", "e"]
      = Except.ok demoPlan := by rfl
  have hpd : plan = demoPlan := Except.ok.inj (h1.symm.trans hcomp)
  subst hpd
  exact ⟨hcomp, by decide, hgpu 3 (by decide)⟩

end OmniAvatar
